import Mathlib

/-!
Verification of the orbit-engine physics sandbox (React + Matter.js).

The development shallowly embeds the physics-relevant core of the
feature-complete simulator variant (the one with lock, color and resize
support): the beforeUpdate gravity pass, the locked-velocity reset, the
escape culling, the collisionStart / collisionActive handlers, the
orbital-velocity diagnostic, and the edit-commit pipeline.  Numeric values
are modelled as real numbers; Math.atan2 is modelled as the complex
argument (which agrees with atan2 on all of the plane), Math.sqrt as
Real.sqrt.  External Matter.js operations that the component calls
(Body.setVelocity, Body.setMass, Body.scale, World.remove) are modelled by
their documented effect on the body record.
-/

namespace OrbitEngine

/-- Planar vector of real coordinates, standing for a Matter.js Vector. -/
structure Vec2 where
  x : ℝ
  y : ℝ

attribute [ext] Vec2

/-- Radial / tangential velocity pair returned by calculateOrbitalVelocity. -/
structure OrbitalVelocity where
  radial : ℝ
  tangential : ℝ

attribute [ext] OrbitalVelocity

/-- The ExtendedBody record of the simulator: a Matter.js body together with
the extra fields the component bolts on (isSun, isLocked, lockedVelocity,
circleRadius, name, color). -/
structure ExtendedBody where
  id : ℕ
  position : Vec2
  velocity : Vec2
  mass : ℝ
  circleRadius : ℝ
  isStatic : Bool
  isSun : Bool
  isLocked : Bool
  lockedVelocity : Option Vec2
  name : String
  color : String

attribute [ext] ExtendedBody

/-- Physics constant GRAVITY_CONSTANT = 0.5 from the source. -/
def GRAVITY_CONSTANT : ℝ := 0.5

/-- Physics constant SUN_MASS = 10000 from the source. -/
def SUN_MASS : ℝ := 10000

/-- Physics constant SUN_RADIUS = 40 from the source. -/
def SUN_RADIUS : ℝ := 40

/-- Model of Math.atan2 y x: the argument of the complex number x + y i.
Both have range (-pi, pi] and satisfy the same defining equations. -/
noncomputable def atan2 (y x : ℝ) : ℝ := Complex.arg ⟨x, y⟩

/-- Euclidean distance between two points, written exactly as the source
computes it: Math.sqrt (dx * dx + dy * dy). -/
noncomputable def dist2d (p q : Vec2) : ℝ :=
  Real.sqrt ((p.x - q.x) * (p.x - q.x) + (p.y - q.y) * (p.y - q.y))

/-- Gravity pass of the beforeUpdate handler for a single body (source
part_001 lines 208-230).  The sun itself and locked planets are skipped;
otherwise the scalar force G * M * m / d^2 is converted to an acceleration
and added, via cos / sin of atan2, to the current velocity of the body. -/
noncomputable def gravityStep (sun : ExtendedBody) (body : ExtendedBody) : ExtendedBody :=
  if body.isSun then body
  else if body.isLocked then body
  else
    let dx := sun.position.x - body.position.x
    let dy := sun.position.y - body.position.y
    let distance := Real.sqrt (dx * dx + dy * dy)
    let force := (GRAVITY_CONSTANT * sun.mass * body.mass) / (distance * distance)
    let angle := atan2 dy dx
    let currentVx := body.velocity.x
    let currentVy := body.velocity.y
    let acceleration := force / body.mass
    let accelerationX := Real.cos angle * acceleration
    let accelerationY := Real.sin angle * acceleration
    { body with velocity := ⟨currentVx + accelerationX, currentVy + accelerationY⟩ }

/-- Cosine of atan2 recovers the unit-vector x component. -/
theorem cos_atan2 (y x : ℝ) (h : ¬(x = 0 ∧ y = 0)) :
    Real.cos (atan2 y x) = x / Real.sqrt (x * x + y * y) := by
  have hz : (⟨x, y⟩ : ℂ) ≠ 0 := by
    intro hc
    rw [Complex.ext_iff] at hc
    exact h ⟨hc.1, hc.2⟩
  have := Complex.cos_arg hz
  rwa [Complex.abs_apply, Complex.normSq_mk] at this

/-- Sine of atan2 recovers the unit-vector y component. -/
theorem sin_atan2 (y x : ℝ) :
    Real.sin (atan2 y x) = y / Real.sqrt (x * x + y * y) := by
  have := Complex.sin_arg (⟨x, y⟩ : ℂ)
  rwa [Complex.abs_apply, Complex.normSq_mk] at this

/-- Positive squared distance for distinct points. -/
theorem dist2d_pos (p q : Vec2) (h : p ≠ q) : 0 < dist2d p q := by
  have hne : p.x - q.x ≠ 0 ∨ p.y - q.y ≠ 0 := by
    by_contra hc
    push_neg at hc
    exact h (Vec2.ext (by linarith [hc.1]) (by linarith [hc.2]))
  have hpos : 0 < (p.x - q.x) * (p.x - q.x) + (p.y - q.y) * (p.y - q.y) := by
    rcases hne with hx | hy
    · have := mul_self_nonneg (p.y - q.y)
      have := mul_self_pos.mpr hx
      linarith
    · have := mul_self_nonneg (p.x - q.x)
      have := mul_self_pos.mpr hy
      linarith
  exact Real.sqrt_pos.mpr hpos

/-- C1: the gravity pass adds to the velocity of an unlocked planet exactly
the vector (G * M_sun / d^2) * u, where u is the unit vector from the planet
toward the sun and d the current planet-sun distance; the delta does not
mention the planet mass (the trajectory is mass-independent), and a locked
planet is left completely untouched by the pass. -/
theorem gravity_step_velocity_delta (sun body : ExtendedBody)
    (hs : body.isSun = false) (hl : body.isLocked = false)
    (hm : body.mass ≠ 0) (hp : body.position ≠ sun.position) :
    ((gravityStep sun body).velocity.x
        = body.velocity.x
          + GRAVITY_CONSTANT * sun.mass
            / (dist2d sun.position body.position * dist2d sun.position body.position)
            * ((sun.position.x - body.position.x) / dist2d sun.position body.position)
      ∧ (gravityStep sun body).velocity.y
        = body.velocity.y
          + GRAVITY_CONSTANT * sun.mass
            / (dist2d sun.position body.position * dist2d sun.position body.position)
            * ((sun.position.y - body.position.y) / dist2d sun.position body.position))
    ∧ (∀ m : ℝ, m ≠ 0 →
        (gravityStep sun { body with mass := m }).velocity
          = (gravityStep sun body).velocity)
    ∧ (∀ b : ExtendedBody, b.isLocked = true → gravityStep sun b = b) := by
  have key : ∀ m : ℝ, m ≠ 0 →
      (gravityStep sun { body with mass := m }).velocity.x
          = body.velocity.x
            + GRAVITY_CONSTANT * sun.mass
              / (dist2d sun.position body.position * dist2d sun.position body.position)
              * ((sun.position.x - body.position.x) / dist2d sun.position body.position)
        ∧ (gravityStep sun { body with mass := m }).velocity.y
          = body.velocity.y
            + GRAVITY_CONSTANT * sun.mass
              / (dist2d sun.position body.position * dist2d sun.position body.position)
              * ((sun.position.y - body.position.y) / dist2d sun.position body.position) := by
    intro m hm0
    have hdpos : 0 < dist2d sun.position body.position :=
      dist2d_pos _ _ (fun hc => hp (by rw [hc]))
    have hd : dist2d sun.position body.position ≠ 0 := ne_of_gt hdpos
    have hxy : ¬(sun.position.x - body.position.x = 0 ∧ sun.position.y - body.position.y = 0) := by
      rintro ⟨hx, hy⟩
      exact hp (Vec2.ext (by linarith) (by linarith))
    have hcos := cos_atan2 (sun.position.y - body.position.y) (sun.position.x - body.position.x) hxy
    have hsin := sin_atan2 (sun.position.y - body.position.y) (sun.position.x - body.position.x)
    have hdist : dist2d sun.position body.position
        = Real.sqrt ((sun.position.x - body.position.x) * (sun.position.x - body.position.x)
            + (sun.position.y - body.position.y) * (sun.position.y - body.position.y)) := rfl
    simp only [gravityStep, hs, hl, Bool.false_eq_true, if_false]
    rw [← hdist] at hcos hsin ⊢
    constructor
    · show body.velocity.x
          + Real.cos (atan2 (sun.position.y - body.position.y) (sun.position.x - body.position.x))
            * ((GRAVITY_CONSTANT * sun.mass * m)
                / (dist2d sun.position body.position * dist2d sun.position body.position) / m)
        = _
      rw [hcos]
      field_simp
      ring
    · show body.velocity.y
          + Real.sin (atan2 (sun.position.y - body.position.y) (sun.position.x - body.position.x))
            * ((GRAVITY_CONSTANT * sun.mass * m)
                / (dist2d sun.position body.position * dist2d sun.position body.position) / m)
        = _
      rw [hsin]
      field_simp
      ring
  have hbody : { body with mass := body.mass } = body := rfl
  refine ⟨?_, ?_, ?_⟩
  · have := key body.mass hm
    rwa [hbody] at this
  · intro m hm0
    have h1 := key m hm0
    have h2 := key body.mass hm
    rw [hbody] at h2
    ext
    · rw [h1.1, h2.1]
    · rw [h1.2, h2.2]
  · intro b hb
    by_cases hbs : b.isSun
    · simp [gravityStep, hbs]
    · simp [gravityStep, hbs, hb]

/-- Concrete sun used by several witnesses: the static body created at
(400, 400) with mass SUN_MASS and radius SUN_RADIUS. -/
def sampleSun : ExtendedBody :=
  { id := 0, position := ⟨400, 400⟩, velocity := ⟨0, 0⟩, mass := 10000,
    circleRadius := 40, isStatic := true, isSun := true, isLocked := false,
    lockedVelocity := none, name := "Sun", color := "#FFD700" }

/-- Concrete unlocked planet at distance 5 from the sun (a 3-4-5 triangle),
mass 20, used by the C1 witness. -/
def samplePlanet : ExtendedBody :=
  { id := 1, position := ⟨397, 396⟩, velocity := ⟨1, 2⟩, mass := 20,
    circleRadius := 10, isStatic := false, isSun := false, isLocked := false,
    lockedVelocity := none, name := "Planet 1", color := "#336699" }

/-- Witness for C1 at the concrete sun and planet above. -/
theorem gravity_step_velocity_delta_witness :
    samplePlanet.isSun = false ∧ samplePlanet.isLocked = false
    ∧ samplePlanet.mass ≠ 0 ∧ samplePlanet.position ≠ sampleSun.position
    ∧ (((gravityStep sampleSun samplePlanet).velocity.x
        = samplePlanet.velocity.x
          + GRAVITY_CONSTANT * sampleSun.mass
            / (dist2d sampleSun.position samplePlanet.position
                * dist2d sampleSun.position samplePlanet.position)
            * ((sampleSun.position.x - samplePlanet.position.x)
                / dist2d sampleSun.position samplePlanet.position)
      ∧ (gravityStep sampleSun samplePlanet).velocity.y
        = samplePlanet.velocity.y
          + GRAVITY_CONSTANT * sampleSun.mass
            / (dist2d sampleSun.position samplePlanet.position
                * dist2d sampleSun.position samplePlanet.position)
            * ((sampleSun.position.y - samplePlanet.position.y)
                / dist2d sampleSun.position samplePlanet.position))
    ∧ (∀ m : ℝ, m ≠ 0 →
        (gravityStep sampleSun { samplePlanet with mass := m }).velocity
          = (gravityStep sampleSun samplePlanet).velocity)
    ∧ (∀ b : ExtendedBody, b.isLocked = true → gravityStep sampleSun b = b)) := by
  have hm : samplePlanet.mass ≠ 0 := by
    simp [samplePlanet]
  have hp : samplePlanet.position ≠ sampleSun.position := by
    intro h
    have hx : (397 : ℝ) = 400 := congrArg Vec2.x h
    norm_num at hx
  exact ⟨rfl, rfl, hm, hp, gravity_step_velocity_delta sampleSun samplePlanet rfl rfl hm hp⟩

/-- Lock transition of the edit-commit handler (source part_001 lines
639-642): save the current velocity into lockedVelocity, set isLocked and
zero the velocity. -/
def lockBody (body : ExtendedBody) : ExtendedBody :=
  { body with lockedVelocity := some body.velocity, isLocked := true, velocity := ⟨0, 0⟩ }

/-- Unlock transition of the edit-commit handler (source part_001 lines
643-649): clear isLocked and, when a saved velocity is present, restore it
and clear the saved slot. -/
def unlockBody (body : ExtendedBody) : ExtendedBody :=
  match body.lockedVelocity with
  | some v => { body with isLocked := false, velocity := v, lockedVelocity := none }
  | none => { body with isLocked := false }

/-- C4: locking saves the current velocity into lockedVelocity, sets
isLocked, and zeroes velocity; unlocking a body whose saved slot holds v
restores velocity v, clears the slot and clears isLocked; hence locking then
unlocking with no intervening force step restores the exact pre-lock
velocity. -/
theorem lock_unlock_restores_velocity (b : ExtendedBody) (v : Vec2) :
    ((lockBody b).lockedVelocity = some b.velocity
      ∧ (lockBody b).isLocked = true
      ∧ (lockBody b).velocity = ⟨0, 0⟩)
    ∧ ((unlockBody { b with lockedVelocity := some v }).velocity = v
      ∧ (unlockBody { b with lockedVelocity := some v }).lockedVelocity = none
      ∧ (unlockBody { b with lockedVelocity := some v }).isLocked = false)
    ∧ ((unlockBody (lockBody b)).velocity = b.velocity
      ∧ (unlockBody (lockBody b)).lockedVelocity = none
      ∧ (unlockBody (lockBody b)).isLocked = false) := by
  refine ⟨⟨rfl, rfl, rfl⟩, ⟨rfl, rfl, rfl⟩, rfl, rfl, rfl⟩

/-- Orbital-velocity diagnostic calculateOrbitalVelocity (source part_001
lines 108-132): distance is computed first, then locked or static bodies
return (0, 0); otherwise the velocity is projected on the radial unit
vector and its perpendicular. -/
noncomputable def calculateOrbitalVelocity (body sun : ExtendedBody) : OrbitalVelocity :=
  let dx := body.position.x - sun.position.x
  let dy := body.position.y - sun.position.y
  let distance := Real.sqrt (dx * dx + dy * dy)
  if body.isLocked || body.isStatic then
    { radial := 0, tangential := 0 }
  else
    let radialX := dx / distance
    let radialY := dy / distance
    { radial := body.velocity.x * radialX + body.velocity.y * radialY,
      tangential := body.velocity.x * radialY - body.velocity.y * radialX }

/-- Orbital velocity as reported by the property-panel rows (source
part_001 lines 685-692): the sun shows 0.00, a held or locked body shows
0.00, and otherwise the radial component and the absolute value of the
tangential component of calculateOrbitalVelocity are shown. -/
noncomputable def reportedOrbitalVelocity (body sun : ExtendedBody) (isHoldingPlanet : Bool) :
    OrbitalVelocity :=
  let ov := calculateOrbitalVelocity body sun
  { radial :=
      if body.isSun then 0
      else if isHoldingPlanet || body.isLocked then 0
      else ov.radial,
    tangential :=
      if body.isSun then 0
      else if isHoldingPlanet || body.isLocked then 0
      else |ov.tangential| }

/-- C7: for a locked body or a held body the diagnostic reports exactly
(0, 0) for both components, regardless of the stored velocity; for a locked
body already the underlying function calculateOrbitalVelocity returns
(0, 0). -/
theorem locked_or_held_zero_velocity_report (body sun : ExtendedBody) (held : Bool)
    (h : body.isLocked = true ∨ held = true) :
    reportedOrbitalVelocity body sun held = { radial := 0, tangential := 0 }
    ∧ (body.isLocked = true →
        calculateOrbitalVelocity body sun = { radial := 0, tangential := 0 }) := by
  constructor
  · rcases h with h | h
    · by_cases hs : body.isSun
      · simp [reportedOrbitalVelocity, hs]
      · simp [reportedOrbitalVelocity, hs, h]
    · by_cases hs : body.isSun
      · simp [reportedOrbitalVelocity, hs]
      · simp [reportedOrbitalVelocity, hs, h]
  · intro hl
    simp [calculateOrbitalVelocity, hl]

/-- Concrete held planet with visibly nonzero stored velocity, for the C7
witness. -/
def heldPlanet : ExtendedBody :=
  { id := 2, position := ⟨500, 400⟩, velocity := ⟨3, 7⟩, mass := 24,
    circleRadius := 12, isStatic := false, isSun := false, isLocked := false,
    lockedVelocity := none, name := "Planet 2", color := "#AA2233" }

/-- Witness for C7: the held (but unlocked) concrete planet reports (0, 0)
even though its stored velocity is (3, 7). -/
theorem locked_or_held_zero_velocity_report_witness :
    (heldPlanet.isLocked = true ∨ true = true)
    ∧ (reportedOrbitalVelocity heldPlanet sampleSun true = { radial := 0, tangential := 0 }
      ∧ (heldPlanet.isLocked = true →
          calculateOrbitalVelocity heldPlanet sampleSun = { radial := 0, tangential := 0 })) :=
  ⟨Or.inr rfl, locked_or_held_zero_velocity_report heldPlanet sampleSun true (Or.inr rfl)⟩

/-- C10: the diagnostic is total on static bodies: whenever isStatic holds
(in particular for the sun itself, even at zero distance where the radial
unit vector would divide by zero) it returns exactly (0, 0). -/
theorem static_body_orbital_velocity_zero (body sun : ExtendedBody)
    (h : body.isStatic = true) :
    calculateOrbitalVelocity body sun = { radial := 0, tangential := 0 } := by
  simp [calculateOrbitalVelocity, h]

/-- Witness for C10 at the degenerate input the claim is about: the sun
passed to the diagnostic against itself (distance exactly zero). -/
theorem static_body_orbital_velocity_zero_witness :
    sampleSun.isStatic = true
    ∧ calculateOrbitalVelocity sampleSun sampleSun = { radial := 0, tangential := 0 } :=
  ⟨rfl, static_body_orbital_velocity_zero sampleSun sampleSun rfl⟩

/-- Scalar force of calculateGravitationalForce (source part_001 lines
146-154), as a real-number expression: G * sunMass * bodyMass divided by
the squared distance.  No epsilon clamp appears anywhere in the source. -/
noncomputable def calculateGravitationalForce (body sun : ExtendedBody) : ℝ :=
  let dx := sun.position.x - body.position.x
  let dy := sun.position.y - body.position.y
  let distance := Real.sqrt (dx * dx + dy * dy)
  (GRAVITY_CONSTANT * sun.mass * body.mass) / (distance * distance)

/-- The same force computation under JavaScript number semantics, where a
division whose denominator is exactly zero does not raise an error but
yields a non-finite value (Infinity or NaN).  The result is the finite
force when the denominator is nonzero and none (non-finite) otherwise. -/
noncomputable def gravitationalForceJs (body sun : ExtendedBody) : Option ℝ :=
  let dx := sun.position.x - body.position.x
  let dy := sun.position.y - body.position.y
  let distance := Real.sqrt (dx * dx + dy * dy)
  if distance * distance = 0 then none
  else some ((GRAVITY_CONSTANT * sun.mass * body.mass) / (distance * distance))

/-- Squared distance written the way the source writes it. -/
theorem dist2d_eq_sqrt (p q : Vec2) :
    dist2d p q = Real.sqrt ((p.x - q.x) * (p.x - q.x) + (p.y - q.y) * (p.y - q.y)) := rfl

/-- Counterexample to C3: at exactly coincident centers the computed
distance is 0 (there is no epsilon clamp in the code) and the force
computation yields no finite value, contradicting the claim that the
distance is clamped to a minimum epsilon so that the applied force is
finite. -/
theorem coincident_force_not_finite :
    gravitationalForceJs
        { samplePlanet with position := sampleSun.position } sampleSun = none
    ∧ dist2d sampleSun.position
        { samplePlanet with position := sampleSun.position }.position = 0 := by
  constructor
  · simp [gravitationalForceJs, Real.sqrt_zero]
  · simp [dist2d, Real.sqrt_zero]

/-- C3 amended: the source performs no clamping at all.  At coincident
centers the force computation divides by zero: no error is raised (the
embedding is total) but the result is non-finite rather than a finite
clamped force; at any non-coincident position the force is the finite value
G * M * m / d^2. -/
theorem force_no_clamp (body sun : ExtendedBody) :
    (body.position = sun.position → gravitationalForceJs body sun = none)
    ∧ (body.position ≠ sun.position →
        gravitationalForceJs body sun = some (calculateGravitationalForce body sun)) := by
  constructor
  · intro h
    have hx : sun.position.x - body.position.x = 0 := by rw [h]; ring
    have hy : sun.position.y - body.position.y = 0 := by rw [h]; ring
    simp [gravitationalForceJs, hx, hy, Real.sqrt_zero]
  · intro h
    have hd : 0 < dist2d sun.position body.position :=
      dist2d_pos _ _ (fun hc => h (by rw [hc]))
    rw [dist2d_eq_sqrt] at hd
    have hne : Real.sqrt ((sun.position.x - body.position.x) * (sun.position.x - body.position.x)
        + (sun.position.y - body.position.y) * (sun.position.y - body.position.y))
        * Real.sqrt ((sun.position.x - body.position.x) * (sun.position.x - body.position.x)
            + (sun.position.y - body.position.y) * (sun.position.y - body.position.y)) ≠ 0 :=
      ne_of_gt (mul_pos hd hd)
    simp only [gravitationalForceJs, calculateGravitationalForce]
    rw [if_neg hne]

/-- Witness for the amended C3, exercising both branches: the coincident
case yields no finite force, and a planet at distance 5 from the sun gets
the finite force value. -/
theorem force_no_clamp_witness :
    ({ samplePlanet with position := sampleSun.position }.position = sampleSun.position
      ∧ gravitationalForceJs { samplePlanet with position := sampleSun.position } sampleSun
          = none)
    ∧ (samplePlanet.position ≠ sampleSun.position
      ∧ gravitationalForceJs samplePlanet sampleSun
          = some (calculateGravitationalForce samplePlanet sampleSun)) := by
  have hp : samplePlanet.position ≠ sampleSun.position := by
    intro h
    have hx : (397 : ℝ) = 400 := congrArg Vec2.x h
    norm_num at hx
  exact ⟨⟨rfl, (force_no_clamp _ sampleSun).1 rfl⟩,
    ⟨hp, (force_no_clamp samplePlanet sampleSun).2 hp⟩⟩

/-- World state: the list of bodies of the Matter.js composite together
with the id held by the selection (selectedBodyRef). -/
structure World where
  bodies : List ExtendedBody
  selectedId : Option ℕ

/-- Locked-velocity reset of the beforeUpdate handler (source part_001
lines 233-236): every locked body gets velocity set to (0, 0). -/
def lockedReset (b : ExtendedBody) : ExtendedBody :=
  if b.isLocked then { b with velocity := ⟨0, 0⟩ } else b

/-- Escape condition of the beforeUpdate handler (source part_001 lines
238-251): a body that is not the sun and not locked and whose distance from
the sun exceeds 5000 is removed. -/
noncomputable def escapeRemoves (sun b : ExtendedBody) : Bool :=
  !b.isSun && !b.isLocked && decide (dist2d b.position sun.position > 5000)

/-- The beforeUpdate handler (source part_001 lines 202-252): find the sun
(bail out when missing), apply the gravity pass to every body, reset every
locked body to zero velocity, remove every escaped body, and clear the
selection when a removed body carries the selected id. -/
noncomputable def beforeUpdate (w : World) : World :=
  match w.bodies.find? (fun b => b.isSun) with
  | none => w
  | some sun =>
    let stepped := (w.bodies.map (gravityStep sun)).map lockedReset
    let removed := stepped.filter (fun b => escapeRemoves sun b)
    { bodies := stepped.filter (fun b => !escapeRemoves sun b),
      selectedId :=
        if removed.any (fun b => decide (w.selectedId = some b.id)) then none
        else w.selectedId }

/-- The gravity pass leaves a locked body untouched. -/
theorem gravityStep_locked (sun b : ExtendedBody) (hb : b.isLocked = true) :
    gravityStep sun b = b := by
  by_cases hbs : b.isSun
  · simp [gravityStep, hbs]
  · simp [gravityStep, hbs, hb]

/-- The gravity pass changes only the velocity field. -/
theorem gravityStep_fields (sun b : ExtendedBody) :
    (gravityStep sun b).isSun = b.isSun ∧ (gravityStep sun b).isLocked = b.isLocked
    ∧ (gravityStep sun b).position = b.position ∧ (gravityStep sun b).id = b.id := by
  by_cases hbs : b.isSun
  · simp [gravityStep, hbs]
  · by_cases hbl : b.isLocked
    · simp [gravityStep, hbs, hbl]
    · simp [gravityStep, hbs, hbl]

/-- The locked reset changes only the velocity field. -/
theorem lockedReset_fields (b : ExtendedBody) :
    (lockedReset b).isSun = b.isSun ∧ (lockedReset b).isLocked = b.isLocked
    ∧ (lockedReset b).position = b.position ∧ (lockedReset b).id = b.id := by
  by_cases hbl : b.isLocked
  · simp [lockedReset, hbl]
  · simp [lockedReset, hbl]

/-- The locked reset is the identity on unlocked bodies. -/
theorem lockedReset_of_unlocked (b : ExtendedBody) (h : b.isLocked = false) :
    lockedReset b = b := by
  simp [lockedReset, h]

/-- C5: after one beforeUpdate step, no surviving unlocked planet is
farther than 5000 from the sun; every locked body survives (as itself with
velocity zeroed) regardless of distance; and an unlocked planet beyond 5000
is removed, with the selection cleared when it was the selected body. -/
theorem escape_culling (w : World) (sun : ExtendedBody)
    (hsun : w.bodies.find? (fun b => b.isSun) = some sun) :
    (∀ x ∈ (beforeUpdate w).bodies, x.isSun = false → x.isLocked = false →
        dist2d x.position sun.position ≤ 5000)
    ∧ (∀ b ∈ w.bodies, b.isLocked = true →
        { b with velocity := (⟨0, 0⟩ : Vec2) } ∈ (beforeUpdate w).bodies)
    ∧ (∀ b ∈ w.bodies, b.isSun = false → b.isLocked = false →
        dist2d b.position sun.position > 5000 →
        gravityStep sun b ∉ (beforeUpdate w).bodies
        ∧ (w.selectedId = some b.id → (beforeUpdate w).selectedId = none)) := by
  have hbodies : (beforeUpdate w).bodies
      = ((w.bodies.map (gravityStep sun)).map lockedReset).filter
          (fun b => !escapeRemoves sun b) := by
    simp [beforeUpdate, hsun]
  have hsel : (beforeUpdate w).selectedId
      = if (((w.bodies.map (gravityStep sun)).map lockedReset).filter
              (fun b => escapeRemoves sun b)).any
            (fun b => decide (w.selectedId = some b.id)) then none
        else w.selectedId := by
    simp [beforeUpdate, hsun]
  refine ⟨?_, ?_, ?_⟩
  · intro x hx hxs hxl
    rw [hbodies, List.mem_filter] at hx
    have hkeep := hx.2
    simp only [escapeRemoves, Bool.not_eq_eq_eq_not, Bool.not_true, Bool.and_eq_false_iff,
      Bool.not_eq_false, decide_eq_false_iff_not, not_lt] at hkeep
    rcases hkeep with h | h
    · rcases h with h | h
      · rw [hxs] at h; simp at h
      · rw [hxl] at h; simp at h
    · exact h
  · intro b hb hbl
    rw [hbodies]
    have hmem : lockedReset (gravityStep sun b)
        ∈ (w.bodies.map (gravityStep sun)).map lockedReset :=
      List.mem_map_of_mem _ (List.mem_map_of_mem _ hb)
    have heq : lockedReset (gravityStep sun b) = { b with velocity := (⟨0, 0⟩ : Vec2) } := by
      rw [gravityStep_locked sun b hbl]
      simp [lockedReset, hbl]
    rw [heq] at hmem
    rw [List.mem_filter]
    refine ⟨hmem, ?_⟩
    simp [escapeRemoves, hbl]
  · intro b hb hbs hbl hdist
    have himg : lockedReset (gravityStep sun b) = gravityStep sun b := by
      apply lockedReset_of_unlocked
      rw [(gravityStep_fields sun b).2.1]
      exact hbl
    have hrem : escapeRemoves sun (gravityStep sun b) = true := by
      obtain ⟨h1, h2, h3, _⟩ := gravityStep_fields sun b
      simp only [escapeRemoves, h1, h2, h3, hbs, hbl]
      simp [hdist]
    constructor
    · intro hmem
      rw [hbodies, List.mem_filter] at hmem
      rw [hrem] at hmem
      simp at hmem
    · intro hwsel
      rw [hsel]
      have hmem : gravityStep sun b
          ∈ ((w.bodies.map (gravityStep sun)).map lockedReset).filter
              (fun x => escapeRemoves sun x) := by
        rw [List.mem_filter]
        constructor
        · have := List.mem_map_of_mem lockedReset
            (List.mem_map_of_mem (gravityStep sun) hb)
          rwa [himg] at this
        · exact hrem
      have hany : (((w.bodies.map (gravityStep sun)).map lockedReset).filter
            (fun x => escapeRemoves sun x)).any
            (fun x => decide (w.selectedId = some x.id)) = true := by
        rw [List.any_eq_true]
        refine ⟨gravityStep sun b, hmem, ?_⟩
        rw [(gravityStep_fields sun b).2.2.2, hwsel]
        simp
      rw [hany]
      simp

/-- Concrete unlocked planet placed at distance 5001 from the sun. -/
def escapedPlanet : ExtendedBody :=
  { id := 3, position := ⟨5401, 400⟩, velocity := ⟨0, 1⟩, mass := 16,
    circleRadius := 8, isStatic := false, isSun := false, isLocked := false,
    lockedVelocity := none, name := "Planet 3", color := "#44AA88" }

/-- Concrete locked planet placed at distance 6000 from the sun. -/
def lockedFarPlanet : ExtendedBody :=
  { id := 4, position := ⟨400, 6400⟩, velocity := ⟨0, 0⟩, mass := 16,
    circleRadius := 8, isStatic := false, isSun := false, isLocked := true,
    lockedVelocity := some ⟨2, 3⟩, name := "Planet 4", color := "#8844AA" }

/-- Concrete world for the C5 witness: the sun, an unlocked planet at
distance 5001 (which is also the selected body), and a locked planet at
distance 6000. -/
def escapeWorld : World :=
  { bodies := [sampleSun, escapedPlanet, lockedFarPlanet], selectedId := some 3 }

/-- Witness for C5: in the concrete world, the planet at distance 5001 is
removed by one step and the selection is cleared, while the locked planet
at distance 6000 survives with zero velocity. -/
theorem escape_culling_witness :
    escapeWorld.bodies.find? (fun b => b.isSun) = some sampleSun
    ∧ dist2d escapedPlanet.position sampleSun.position > 5000
    ∧ gravityStep sampleSun escapedPlanet ∉ (beforeUpdate escapeWorld).bodies
    ∧ (beforeUpdate escapeWorld).selectedId = none
    ∧ { lockedFarPlanet with velocity := (⟨0, 0⟩ : Vec2) } ∈ (beforeUpdate escapeWorld).bodies := by
  have hsun : escapeWorld.bodies.find? (fun b => b.isSun) = some sampleSun := rfl
  have hd : dist2d escapedPlanet.position sampleSun.position > 5000 := by
    have h1 : dist2d escapedPlanet.position sampleSun.position = Real.sqrt (5001 ^ 2) := by
      simp only [dist2d, escapedPlanet, sampleSun]
      norm_num
    rw [h1, Real.sqrt_sq (by norm_num : (0 : ℝ) ≤ 5001)]
    norm_num
  have h := escape_culling escapeWorld sampleSun hsun
  have hmem : escapedPlanet ∈ escapeWorld.bodies := by simp [escapeWorld]
  have hmem4 : lockedFarPlanet ∈ escapeWorld.bodies := by simp [escapeWorld]
  have h3 := h.2.2 escapedPlanet hmem rfl rfl hd
  exact ⟨hsun, hd, h3.1, h3.2 rfl, h.2.1 lockedFarPlanet hmem4 rfl⟩

/-- Collision pair delivered by the engine to the collisionStart and
collisionActive handlers. -/
structure CollisionPair where
  bodyA : ExtendedBody
  bodyB : ExtendedBody

/-- Removal of a body from the world (Matter.World.remove followed by the
selection check of the handler): all bodies carrying the removed id are
dropped and the selection is cleared when it held that id.  Ids are unique
in the running app, so id-filtering coincides with removal by reference. -/
def removeById (w : World) (i : ℕ) : World :=
  { bodies := w.bodies.filter (fun b => decide (b.id ≠ i)),
    selectedId := if w.selectedId = some i then none else w.selectedId }

/-- Per-pair body of the collisionStart handler (source part_001 lines
279-299): when exactly one side of the pair is the sun, the other side is
removed unconditionally, with no isLocked test anywhere. -/
def collisionStartPair (w : World) (p : CollisionPair) : World :=
  if p.bodyA.isSun && !p.bodyB.isSun then removeById w p.bodyB.id
  else if p.bodyB.isSun && !p.bodyA.isSun then removeById w p.bodyA.id
  else w

/-- The collisionStart handler folds the per-pair body over all delivered
pairs. -/
def collisionStartEvent (w : World) (pairs : List CollisionPair) : World :=
  pairs.foldl collisionStartPair w

/-- Processing one pair never adds a body. -/
theorem collisionStartPair_mono (w : World) (p : CollisionPair) (x : ExtendedBody)
    (hx : x ∈ (collisionStartPair w p).bodies) : x ∈ w.bodies := by
  unfold collisionStartPair at hx
  by_cases h1 : p.bodyA.isSun && !p.bodyB.isSun
  · rw [if_pos h1] at hx
    exact (List.mem_filter.mp hx).1
  · rw [if_neg h1] at hx
    by_cases h2 : p.bodyB.isSun && !p.bodyA.isSun
    · rw [if_pos h2] at hx
      exact (List.mem_filter.mp hx).1
    · rwa [if_neg h2] at hx

/-- Processing one pair either keeps the selection or clears it. -/
theorem collisionStartPair_selection (w : World) (p : CollisionPair) :
    (collisionStartPair w p).selectedId = w.selectedId
    ∨ (collisionStartPair w p).selectedId = none := by
  unfold collisionStartPair removeById
  by_cases h1 : p.bodyA.isSun && !p.bodyB.isSun
  · rw [if_pos h1]
    by_cases hsel : w.selectedId = some p.bodyB.id
    · right; simp [hsel]
    · left; simp [hsel]
  · rw [if_neg h1]
    by_cases h2 : p.bodyB.isSun && !p.bodyA.isSun
    · rw [if_pos h2]
      by_cases hsel : w.selectedId = some p.bodyA.id
      · right; simp [hsel]
      · left; simp [hsel]
    · rw [if_neg h2]; left; rfl

/-- A fold of pairs never adds a body. -/
theorem collisionStartEvent_mono (pairs : List CollisionPair) (w : World) (x : ExtendedBody)
    (hx : x ∈ (collisionStartEvent w pairs).bodies) : x ∈ w.bodies := by
  induction pairs generalizing w with
  | nil => exact hx
  | cons q rest ih =>
      exact collisionStartPair_mono w q x (ih (collisionStartPair w q) hx)

/-- A fold of pairs keeps a cleared selection cleared. -/
theorem collisionStartEvent_none (pairs : List CollisionPair) (w : World)
    (h : w.selectedId = none) : (collisionStartEvent w pairs).selectedId = none := by
  induction pairs generalizing w with
  | nil => exact h
  | cons q rest ih =>
      apply ih
      rcases collisionStartPair_selection w q with hq | hq
      · rw [hq, h]
      · exact hq

/-- Unfolding of the event fold on a first pair. -/
theorem collisionStartEvent_cons (w : World) (q : CollisionPair) (rest : List CollisionPair) :
    collisionStartEvent w (q :: rest) = collisionStartEvent (collisionStartPair w q) rest := rfl

/-- C6: when a delivered pair has the sun on one side - in either slot, so
both branches of the handler are covered - and a planet on the other, the
planet is removed by the collisionStart handler in the same step,
unconditionally (the handler never consults isLocked), and when that planet
was the selected body the selection is cleared in the same step. -/
theorem sun_collision_destroys (w : World) (pairs : List CollisionPair) (p : CollisionPair)
    (planet : ExtendedBody) (hp : p ∈ pairs)
    (horient : (p.bodyA.isSun = true ∧ p.bodyB = planet)
      ∨ (p.bodyB.isSun = true ∧ p.bodyA = planet))
    (hplanet : planet.isSun = false) :
    (∀ x ∈ (collisionStartEvent w pairs).bodies, x.id ≠ planet.id)
    ∧ (w.selectedId = some planet.id → (collisionStartEvent w pairs).selectedId = none) := by
  induction pairs generalizing w with
  | nil => cases hp
  | cons q rest ih =>
      rcases List.mem_cons.mp hp with hqp | hrest
      · subst hqp
        have hstep : collisionStartPair w p = removeById w planet.id := by
          rcases horient with ⟨hsunA, hplB⟩ | ⟨hsunB, hplA⟩
          · have hcond : (p.bodyA.isSun && !p.bodyB.isSun) = true := by
              rw [hsunA, hplB, hplanet]; rfl
            unfold collisionStartPair
            rw [if_pos hcond, hplB]
          · have hcond1 : ¬((p.bodyA.isSun && !p.bodyB.isSun) = true) := by
              rw [hplA, hplanet]; simp
            have hcond2 : (p.bodyB.isSun && !p.bodyA.isSun) = true := by
              rw [hsunB, hplA, hplanet]; rfl
            unfold collisionStartPair
            rw [if_neg hcond1, if_pos hcond2, hplA]
        constructor
        · intro x hx
          rw [collisionStartEvent_cons] at hx
          have hx0 : x ∈ (collisionStartPair w p).bodies :=
            collisionStartEvent_mono rest _ x hx
          rw [hstep] at hx0
          have := (List.mem_filter.mp hx0).2
          simpa using this
        · intro hsel
          rw [collisionStartEvent_cons]
          apply collisionStartEvent_none
          rw [hstep]
          simp [removeById, hsel]
      · constructor
        · intro x hx
          rw [collisionStartEvent_cons] at hx
          exact (ih (collisionStartPair w q) hrest).1 x hx
        · intro hsel
          rw [collisionStartEvent_cons]
          rcases collisionStartPair_selection w q with hq | hq
          · exact (ih (collisionStartPair w q) hrest).2 (by rw [hq, hsel])
          · exact collisionStartEvent_none rest _ hq

/-- Concrete locked planet overlapping the sun, for the C6 witness. -/
def lockedAtSun : ExtendedBody :=
  { id := 5, position := ⟨420, 400⟩, velocity := ⟨0, 0⟩, mass := 30,
    circleRadius := 15, isStatic := false, isSun := false, isLocked := true,
    lockedVelocity := some ⟨4, 0⟩, name := "Planet 5", color := "#DD6600" }

/-- Concrete world for the C6 witness, with the locked overlapping planet
selected. -/
def collisionWorld : World :=
  { bodies := [sampleSun, lockedAtSun, samplePlanet], selectedId := some 5 }

/-- Concrete pair list for the C6 witness: the locked planet delivered as
bodyA with the sun as bodyB (the mirrored branch of the handler), and the
sun delivered as bodyA with planet 1 as bodyB (the first branch). -/
def mirroredPairs : List CollisionPair :=
  [⟨lockedAtSun, sampleSun⟩, ⟨sampleSun, samplePlanet⟩]

/-- Witness for C6, exercising both handler branches in one event: the
locked planet arriving as bodyA of its pair (sun in the bodyB slot) is
removed and the selection is cleared, lock notwithstanding, and planet 1
arriving as bodyB of its pair (sun in the bodyA slot) is removed too. -/
theorem sun_collision_destroys_witness :
    ((⟨lockedAtSun, sampleSun⟩ : CollisionPair) ∈ mirroredPairs
      ∧ lockedAtSun.isSun = false ∧ lockedAtSun.isLocked = true
      ∧ (∀ x ∈ (collisionStartEvent collisionWorld mirroredPairs).bodies,
          x.id ≠ lockedAtSun.id)
      ∧ (collisionStartEvent collisionWorld mirroredPairs).selectedId = none)
    ∧ ((⟨sampleSun, samplePlanet⟩ : CollisionPair) ∈ mirroredPairs
      ∧ samplePlanet.isSun = false
      ∧ (∀ x ∈ (collisionStartEvent collisionWorld mirroredPairs).bodies,
          x.id ≠ samplePlanet.id)) := by
  have h1 := sun_collision_destroys collisionWorld mirroredPairs
    ⟨lockedAtSun, sampleSun⟩ lockedAtSun (by simp [mirroredPairs])
    (Or.inr ⟨rfl, rfl⟩) rfl
  have h2 := sun_collision_destroys collisionWorld mirroredPairs
    ⟨sampleSun, samplePlanet⟩ samplePlanet (by simp [mirroredPairs])
    (Or.inl ⟨rfl, rfl⟩) rfl
  exact ⟨⟨by simp [mirroredPairs], rfl, rfl, h1.1, h1.2 rfl⟩,
    ⟨by simp [mirroredPairs], rfl, h2.1⟩⟩

/-- Whether the body with the given id takes part in one of the listed
contact pairs (pairs are given by the ids of their two bodies). -/
def inContact (pairs : List (ℕ × ℕ)) (i : ℕ) : Bool :=
  pairs.any (fun p => p.1 == i || p.2 == i)

/-- Model of the external rigid-body stepper of the engine (integration and
constraint solving): it may add an arbitrary velocity delta to any body
that takes part in a contact pair of the current step, and leaves
contact-free bodies untouched (world gravity is zero and air friction is
zero in this simulator). -/
def applySolver (contacts : List (ℕ × ℕ)) (delta : ℕ → Vec2) (bodies : List ExtendedBody) :
    List ExtendedBody :=
  bodies.map fun b =>
    if inContact contacts b.id then
      { b with velocity := ⟨b.velocity.x + (delta b.id).x, b.velocity.y + (delta b.id).y⟩ }
    else b

/-- The collisionActive handler (source part_001 lines 302-315): every
locked body taking part in a sustained (active) contact pair is reset to
zero velocity.  Pairs whose contact started only in the current step are
delivered to collisionStart instead and are not covered here. -/
def collisionActiveEvent (active : List (ℕ × ℕ)) (bodies : List ExtendedBody) :
    List ExtendedBody :=
  bodies.map fun b =>
    if b.isLocked && inContact active b.id then { b with velocity := ⟨0, 0⟩ } else b

/-- One full engine step in the Matter.js Engine.update ordering: the
beforeUpdate event first, then the internal integration and constraint
solving over the contact pairs of the step, then the collisionActive event
over the sustained pairs only. -/
noncomputable def engineStep (w : World) (contacts active : List (ℕ × ℕ)) (delta : ℕ → Vec2) :
    World :=
  let w1 := beforeUpdate w
  { w1 with bodies := collisionActiveEvent active (applySolver contacts delta w1.bodies) }

/-- Concrete locked planet with id 1. -/
def lockedPlanetA : ExtendedBody :=
  { id := 1, position := ⟨500, 400⟩, velocity := ⟨0, 0⟩, mass := 20,
    circleRadius := 10, isStatic := false, isSun := false, isLocked := true,
    lockedVelocity := some ⟨0, 5⟩, name := "Planet A", color := "#111111" }

/-- Concrete locked planet with id 2, touching planet 1. -/
def lockedPlanetB : ExtendedBody :=
  { id := 2, position := ⟨520, 400⟩, velocity := ⟨0, 0⟩, mass := 20,
    circleRadius := 10, isStatic := false, isSun := false, isLocked := true,
    lockedVelocity := some ⟨0, 0⟩, name := "Planet B", color := "#222222" }

/-- Concrete world with the sun and the two locked touching planets. -/
def contactWorld : World :=
  { bodies := [sampleSun, lockedPlanetA, lockedPlanetB], selectedId := none }

/-- Concrete solver perturbation: the contact impulse gives body 1 a
velocity delta of (1, 0) and every other body nothing. -/
def solverDelta : ℕ → Vec2 :=
  fun i => if i = 1 then ⟨1, 0⟩ else ⟨0, 0⟩

/-- Counterexample to C9: in the step where the contact pair (1, 2) first
appears (so it is a collisionStart pair, not yet a sustained collisionActive
pair), the solver impulse on the locked planet 1 survives to the end of the
step, so a locked planet ends the step with nonzero stored velocity.  The
unconditional reset of the code runs at the start of the step
(beforeUpdate), not at its end, and the in-step reset only covers
sustained contacts. -/
theorem locked_new_contact_keeps_solver_velocity :
    ∃ b ∈ (engineStep contactWorld [(1, 2)] [] solverDelta).bodies,
      b.isLocked = true ∧ b.velocity ≠ (⟨0, 0⟩ : Vec2) := by
  have hbodies : (engineStep contactWorld [(1, 2)] [] solverDelta).bodies
      = [sampleSun, { lockedPlanetA with velocity := ⟨0 + 1, 0 + 0⟩ },
          { lockedPlanetB with velocity := ⟨0 + 0, 0 + 0⟩ }] := rfl
  refine ⟨{ lockedPlanetA with velocity := ⟨0 + 1, 0 + 0⟩ }, ?_, rfl, ?_⟩
  · rw [hbodies]
    simp
  · intro h
    have hx : (0 + 1 : ℝ) = 0 := congrArg Vec2.x h
    norm_num at hx

/-- A body in contact stays in contact for a superset of pairs. -/
theorem inContact_mono (contacts active : List (ℕ × ℕ)) (i : ℕ)
    (hsub : ∀ p ∈ contacts, p ∈ active) (h : inContact contacts i = true) :
    inContact active i = true := by
  rw [inContact, List.any_eq_true] at h ⊢
  obtain ⟨p, hp, hpi⟩ := h
  exact ⟨p, hsub p hp, hpi⟩

/-- C9 amended: the unconditional locked-velocity reset runs at the start
of each step, inside beforeUpdate, so right after beforeUpdate every locked
body has velocity exactly (0, 0); and when every contact of the step is a
sustained contact (delivered to collisionActive), the end of the step also
leaves every locked body at velocity exactly (0, 0), whatever impulse the
solver applied. -/
theorem locked_reset_start_and_sustained (w : World) (sun : ExtendedBody)
    (hsun : w.bodies.find? (fun b => b.isSun) = some sun)
    (contacts active : List (ℕ × ℕ)) (delta : ℕ → Vec2)
    (hsub : ∀ p ∈ contacts, p ∈ active) :
    (∀ b ∈ (beforeUpdate w).bodies, b.isLocked = true → b.velocity = (⟨0, 0⟩ : Vec2))
    ∧ (∀ b ∈ (engineStep w contacts active delta).bodies, b.isLocked = true →
        b.velocity = (⟨0, 0⟩ : Vec2)) := by
  have part1 : ∀ b ∈ (beforeUpdate w).bodies, b.isLocked = true →
      b.velocity = (⟨0, 0⟩ : Vec2) := by
    intro b hb hbl
    have hbodies : (beforeUpdate w).bodies
        = ((w.bodies.map (gravityStep sun)).map lockedReset).filter
            (fun x => !escapeRemoves sun x) := by
      simp [beforeUpdate, hsun]
    rw [hbodies, List.mem_filter] at hb
    obtain ⟨c, _, hc⟩ := List.mem_map.mp hb.1
    by_cases hcl : c.isLocked
    · rw [← hc]
      simp [lockedReset, hcl]
    · rw [← hc] at hbl
      rw [lockedReset_of_unlocked c (by simpa using hcl)] at hbl
      exact absurd hbl (by simpa using hcl)
  refine ⟨part1, ?_⟩
  intro b hb hbl
  have hstep : (engineStep w contacts active delta).bodies
      = collisionActiveEvent active (applySolver contacts delta (beforeUpdate w).bodies) := rfl
  rw [hstep] at hb
  obtain ⟨b1, hb1, hb1eq⟩ := List.mem_map.mp hb
  obtain ⟨b0, hb0, hb0eq⟩ := List.mem_map.mp hb1
  have hb1l : b1.isLocked = true := by
    by_cases hz : (b1.isLocked && inContact active b1.id) = true
    · simp only [Bool.and_eq_true] at hz
      exact hz.1
    · rw [if_neg hz] at hb1eq
      rw [hb1eq]
      exact hbl
  have hb0l : b0.isLocked = true := by
    by_cases hc : inContact contacts b0.id = true
    · rw [if_pos hc] at hb0eq
      rw [← hb0eq] at hb1l
      simpa using hb1l
    · rw [if_neg hc] at hb0eq
      rw [hb0eq]
      exact hb1l
  have hb0v : b0.velocity = (⟨0, 0⟩ : Vec2) := part1 b0 hb0 hb0l
  by_cases hc : inContact contacts b0.id = true
  · have hid : b1.id = b0.id := by
      rw [← hb0eq, if_pos hc]
    have hact : inContact active b1.id = true := by
      rw [hid]
      exact inContact_mono contacts active b0.id hsub hc
    have hz : (b1.isLocked && inContact active b1.id) = true := by
      rw [hb1l, hact]
      rfl
    rw [if_pos hz] at hb1eq
    rw [← hb1eq]
  · have hb1val : b1 = b0 := by
      rw [← hb0eq, if_neg hc]
    by_cases hz : (b1.isLocked && inContact active b1.id) = true
    · rw [if_pos hz] at hb1eq
      rw [← hb1eq]
    · rw [if_neg hz] at hb1eq
      rw [← hb1eq, hb1val]
      exact hb0v

/-- Witness for the amended C9: with the same concrete world and solver
impulse, when the contact pair (1, 2) is sustained (delivered to
collisionActive), every locked body does end the step with velocity
(0, 0). -/
theorem locked_reset_start_and_sustained_witness :
    contactWorld.bodies.find? (fun b => b.isSun) = some sampleSun
    ∧ (∀ p ∈ [((1 : ℕ), (2 : ℕ))], p ∈ [((1 : ℕ), (2 : ℕ))])
    ∧ (∀ b ∈ (beforeUpdate contactWorld).bodies, b.isLocked = true →
        b.velocity = (⟨0, 0⟩ : Vec2))
    ∧ (∀ b ∈ (engineStep contactWorld [(1, 2)] [(1, 2)] solverDelta).bodies,
        b.isLocked = true → b.velocity = (⟨0, 0⟩ : Vec2)) := by
  have h := locked_reset_start_and_sustained contactWorld sampleSun rfl
    [(1, 2)] [(1, 2)] solverDelta (fun p hp => hp)
  exact ⟨rfl, fun p hp => hp, h.1, h.2⟩

/-- Buffered field edits of the edit form (editingValues state). -/
structure EditingValues where
  name : String
  mass : ℝ
  size : ℝ
  color : String
  isLocked : Bool

/-- Model of Matter.Body.setMass: the mass field is set to the given value
(inverse mass and density follow it; they are not tracked here). -/
def matterSetMass (b : ExtendedBody) (m : ℝ) : ExtendedBody :=
  { b with mass := m }

/-- Model of Matter.Body.scale on a circle body with equal axis factors:
the radius multiplies by the factor and, as a documented side effect, the
mass is recomputed as density times the scaled area, i.e. multiplied by
sx * sy. -/
noncomputable def matterScale (b : ExtendedBody) (sx sy : ℝ) : ExtendedBody :=
  { b with circleRadius := b.circleRadius * sx, mass := b.mass * (sx * sy) }

/-- The Done commit of the edit form (source part_001 lines 622-669), in
the exact statement order of the source: name, mass (sun only), color,
lock transition (planet only), then the size rescale, then for planets
Matter.Body.setMass(body, body.mass) - whose argument reads the mass AFTER
the scale operation already recomputed it.  The JavaScript falsy fallback
body.circleRadius or radius or 1 is modelled by mapping a zero radius
to 1. -/
noncomputable def commitEdit (isSunSelected : Bool) (ev : EditingValues)
    (body : ExtendedBody) : ExtendedBody :=
  let b1 := { body with name := ev.name }
  let b2 := if isSunSelected then matterSetMass b1 ev.mass else b1
  let b3 := { b2 with color := ev.color }
  let b4 := if isSunSelected then b3
    else if ev.isLocked then lockBody b3 else unlockBody b3
  let oldRadius := if b4.circleRadius = 0 then 1 else b4.circleRadius
  let newRadius := ev.size / 2
  let scale := newRadius / oldRadius
  let b5 := matterScale b4 scale scale
  let b6 := { b5 with circleRadius := newRadius }
  if isSunSelected then b6 else matterSetMass b6 b6.mass

/-- Size-input onChange of the sibling simulator variant (source part_002
lines 502-517): there the current mass is saved BEFORE Matter.Body.scale
and restored afterwards, so that variant really keeps mass independent of
size. -/
noncomputable def sizeOnChange (size : ℝ) (body : ExtendedBody) : ExtendedBody :=
  let currentMass := body.mass
  let oldRadius := if body.circleRadius = 0 then 1 else body.circleRadius
  let newRadius := size / 2
  let scale := newRadius / oldRadius
  let b1 := matterScale body scale scale
  let b2 := { b1 with circleRadius := newRadius }
  matterSetMass b2 currentMass

/-- Concrete planet of radius 10 and mass 20 for the C2 failing input. -/
def resizedPlanet : ExtendedBody :=
  { id := 6, position := ⟨600, 400⟩, velocity := ⟨0, 3⟩, mass := 20,
    circleRadius := 10, isStatic := false, isSun := false, isLocked := false,
    lockedVelocity := none, name := "Planet 6", color := "#0066CC" }

/-- Concrete size edit doubling the diameter from 20 to 40. -/
def resizeEdit : EditingValues :=
  { name := "Planet 6", mass := 20, size := 40, color := "#0066CC", isLocked := false }

/-- C2 at the failing input: committing a pure size edit (diameter 20 to
40) through the Done handler multiplies the planet mass by the squared
scale factor (20 becomes 80) because Matter.Body.setMass(body, body.mass)
re-applies the mass that Matter.Body.scale has already recomputed, not the
pre-edit mass; the sibling variant sizeOnChange, which saves the mass
before scaling, keeps mass 20 under the same resize - matching the inline
comment Restore the mass to keep it independent of size. -/
theorem size_edit_scales_mass :
    (commitEdit false resizeEdit resizedPlanet).mass = 80
    ∧ resizedPlanet.mass = 20
    ∧ (commitEdit false resizeEdit resizedPlanet).circleRadius = 20
    ∧ (sizeOnChange 40 resizedPlanet).mass = 20
    ∧ (sizeOnChange 40 resizedPlanet).circleRadius = 20 := by
  have h10 : (10 : ℝ) ≠ 0 := by norm_num
  refine ⟨?_, rfl, ?_, ?_, ?_⟩
  · simp only [commitEdit, matterSetMass, matterScale, lockBody, unlockBody,
      resizedPlanet, resizeEdit]
    norm_num
  · simp only [commitEdit, matterSetMass, matterScale, lockBody, unlockBody,
      resizedPlanet, resizeEdit]
    norm_num
  · simp only [sizeOnChange, matterSetMass, matterScale, resizedPlanet]
  · simp only [sizeOnChange, matterSetMass, matterScale, resizedPlanet]
    norm_num

/-- C8 amended: the commit path applies whatever number the edit buffer
holds, with no range validation at any point: for a sun-selected commit
whose size field is untouched, the resulting mass is exactly the buffered
mass value, whatever it is (negative, zero or otherwise out of range),
while the radius is unchanged; and for every planet commit the resulting
radius is exactly half the buffered size value, again unvalidated. -/
theorem edit_commit_no_validation (b : ExtendedBody) (ev : EditingValues)
    (hsize : ev.size = 2 * b.circleRadius) (hr : b.circleRadius ≠ 0) :
    (commitEdit true ev b).mass = ev.mass
    ∧ (commitEdit true ev b).circleRadius = b.circleRadius
    ∧ ∀ c : ExtendedBody, ∀ ev2 : EditingValues,
        (commitEdit false ev2 c).circleRadius = ev2.size / 2 := by
  have hhalf : ev.size / 2 = b.circleRadius := by
    rw [hsize]; ring
  refine ⟨?_, ?_, ?_⟩
  · simp only [commitEdit, matterSetMass, matterScale, if_true]
    rw [if_neg hr, hhalf]
    field_simp
  · simp only [commitEdit, matterSetMass, matterScale, if_true]
    exact hhalf
  · intro c ev2
    simp [commitEdit, matterSetMass, matterScale]

/-- Concrete invalid edit: the mass field of the sun edit form holds -5
(below the advertised minimum of 0.1; the form performs no validation and
parseFloat hands the value through). -/
def invalidMassEdit : EditingValues :=
  { name := "Sun", mass := -5, size := 80, color := "#FFD700", isLocked := false }

/-- Counterexample to C8: committing the out-of-range mass -5 on the sun
is not a no-op - the sun mass changes from 10000 to -5, and after the edit
the registry holds a body with non-positive mass. -/
theorem negative_mass_edit_applied :
    (commitEdit true invalidMassEdit sampleSun).mass = -5
    ∧ sampleSun.mass = 10000
    ∧ ¬(0 < (commitEdit true invalidMassEdit sampleSun).mass) := by
  have h : (commitEdit true invalidMassEdit sampleSun).mass = -5 := by
    simp only [commitEdit, matterSetMass, matterScale, invalidMassEdit, sampleSun]
    norm_num
  refine ⟨h, rfl, ?_⟩
  rw [h]
  norm_num

/-- Witness for the amended C8 at the concrete invalid edit. -/
theorem edit_commit_no_validation_witness :
    invalidMassEdit.size = 2 * sampleSun.circleRadius
    ∧ sampleSun.circleRadius ≠ 0
    ∧ (commitEdit true invalidMassEdit sampleSun).mass = invalidMassEdit.mass
    ∧ (commitEdit true invalidMassEdit sampleSun).circleRadius = sampleSun.circleRadius
    ∧ ∀ c : ExtendedBody, ∀ ev2 : EditingValues,
        (commitEdit false ev2 c).circleRadius = ev2.size / 2 := by
  have h1 : invalidMassEdit.size = 2 * sampleSun.circleRadius := by
    norm_num [invalidMassEdit, sampleSun]
  have h2 : sampleSun.circleRadius ≠ 0 := by
    norm_num [sampleSun]
  have h := edit_commit_no_validation sampleSun invalidMassEdit h1 h2
  exact ⟨h1, h2, h.1, h.2.1, h.2.2⟩

end OrbitEngine
